import Mathlib

/-
Verification of the change-gated inference session of cf_ai_code-mentor
(src/src/index.ts).  The embedding models the MentorSession Durable Object:
the calculateDiff heuristic, the webSocketMessage handler (gating, Inference
Gateway call, state update, storage writes, outbound frames) and the fetch
handler's attach-time replay.  Outbound websocket sends and durable storage
writes are recorded as an ordered trace of actions.
-/

namespace CodeMentor

/-- Scan forward from index `start` while characters at the same index of the
two character lists match, stopping at `minLen`; embeds the first while loop
of `calculateDiff` (`while (start < minLen && oldText[start] === newText[start]) start++`).
The fuel argument bounds the iteration count and is supplied as `minLen`. -/
def scanStart (o n : List Char) (minLen : Nat) : Nat → Nat → Nat
  | start, 0 => start
  | start, fuel + 1 =>
    if start < minLen ∧ o.getD start ' ' = n.getD start ' ' then
      scanStart o n minLen (start + 1) fuel
    else start

/-- Scan backward from the last index of each character list while characters
match, never consuming more than `limit` characters; embeds the second while
loop of `calculateDiff`
(`while (end < minLen - start && oldText[oldText.length-1-end] === newText[newText.length-1-end]) end++`). -/
def scanEnd (o n : List Char) (limit : Nat) : Nat → Nat → Nat
  | e, 0 => e
  | e, fuel + 1 =>
    if e < limit ∧ o.getD (o.length - 1 - e) ' ' = n.getD (n.length - 1 - e) ' ' then
      scanEnd o n limit (e + 1) fuel
    else e

/-- Embedding of `MentorSession.calculateDiff` (src/src/index.ts): strips the
common affixes of the two snapshots and returns the larger remaining middle. -/
def calculateDiff (oldText newText : String) : Nat :=
  if oldText = newText then 0
  else if oldText = "" then newText.length
  else if newText = "" then oldText.length
  else
    let minLen := min oldText.length newText.length
    let start := scanStart oldText.data newText.data minLen 0 minLen
    let e := scanEnd oldText.data newText.data (minLen - start) 0 (minLen - start)
    max (oldText.length - start - e) (newText.length - start - e)

/-- Length of the longest common initial segment of two character lists. -/
def commonPrefixLen : List Char → List Char → Nat
  | a :: as, b :: bs => if a = b then commonPrefixLen as bs + 1 else 0
  | _, _ => 0

/-- Reference magnitude function written from the words of spec section 4.1:
return 0 on equal inputs, the other length when one side is empty, and
otherwise `max` of the two middles left after removing the longest common
prefix and a common suffix bounded so it cannot overlap the prefix. -/
def specMagnitude (oldText newText : String) : Nat :=
  if oldText = newText then 0
  else if oldText = "" then newText.length
  else if newText = "" then oldText.length
  else
    let p := commonPrefixLen oldText.data newText.data
    let bound := min oldText.length newText.length - p
    let sfx := min bound (commonPrefixLen oldText.data.reverse newText.data.reverse)
    max (oldText.length - p - sfx) (newText.length - p - sfx)

/-- Per-session mutable state of the `MentorSession` Durable Object:
`lastAnalyzedCode` (the baseline last sent to the Gateway) and `lastTip`
(the advisory it returned), both initially `""`. -/
structure SessionState where
  lastAnalyzedCode : String
  lastTip : String
  deriving DecidableEq

/-- Result of one Inference Gateway call (`this.env.AI.run`): either the
advisory text of a successful response, or the thrown error. -/
inductive GatewayResult where
  | ok (response : String)
  | err (message : String)
  deriving DecidableEq

/-- Outcome of handling one snapshot message, in the vocabulary of the spec's
`onSnapshot`: skipped below the gate, analyzed on success, failed on a
Gateway error. -/
inductive Outcome where
  | skipped
  | analyzed (tip : String)
  | failed
  deriving DecidableEq

/-- Observable side effect of the handler, in program order: a websocket
`send` to a connection (identified by a number) or a durable `storage.put`
of one of the two persisted slots. -/
inductive Action where
  | sendTo (conn : Nat) (frame : String)
  | putLastCode (value : String)
  | putLastTip (value : String)
  deriving DecidableEq

/-- Wire frame of a fresh advisory: `ws.send(\x60AI TIP: ${response.response}\x60)`. -/
def resultFrame (tip : String) : String := "AI TIP: " ++ tip

/-- Wire frame sent from the catch branch on a Gateway error:
`ws.send(\x60AI TIP: Error generating tip.\x60)`. -/
def errorFrame : String := "AI TIP: Error generating tip."

/-- Wire frame replaying the stored baseline on attach:
`server.send(\x60RESTORE_CODE:${this.lastAnalyzedCode}\x60)`. -/
def restoreCodeFrame (code : String) : String := "RESTORE_CODE:" ++ code

/-- Wire frame replaying the stored tip on attach:
`server.send(\x60AI TIP:${this.lastTip}\x60)`. -/
def restoreTipFrame (tip : String) : String := "AI TIP:" ++ tip

/-- The gating threshold `CHANGE_THRESHOLD = 50` of `webSocketMessage`. -/
def CHANGE_THRESHOLD : Nat := 50

/-- Embedding of `MentorSession.webSocketMessage`: compute the change
magnitude of the incoming snapshot against `lastAnalyzedCode`; above the
threshold call the Gateway (its result is passed in as `gw`), on success send
the advisory to the sender's socket, update both fields and persist them, on
error send the error frame and change nothing; at or below the threshold do
nothing.  Returns the new state, the outcome and the ordered action trace. -/
def webSocketMessage (s : SessionState) (sender : Nat) (message : String)
    (gw : GatewayResult) : SessionState × Outcome × List Action :=
  if calculateDiff s.lastAnalyzedCode message > CHANGE_THRESHOLD then
    match gw with
    | GatewayResult.ok response =>
        (⟨message, response⟩, Outcome.analyzed response,
          [Action.sendTo sender (resultFrame response),
           Action.putLastCode message,
           Action.putLastTip response])
    | GatewayResult.err _ =>
        (s, Outcome.failed, [Action.sendTo sender errorFrame])
  else
    (s, Outcome.skipped, [])

/-- Embedding of the attach-time replay inside `MentorSession.fetch`: after
accepting the websocket, send the stored code if non-empty, then the stored
tip if non-empty.  Returns the (unchanged) state and the action trace. -/
def fetchAttach (s : SessionState) (conn : Nat) : SessionState × List Action :=
  (s,
    (if s.lastAnalyzedCode ≠ "" then
        [Action.sendTo conn (restoreCodeFrame s.lastAnalyzedCode)]
      else [])
      ++ (if s.lastTip ≠ "" then [Action.sendTo conn (restoreTipFrame s.lastTip)] else []))

/-- True iff every durable storage put in the trace happens before every
websocket send; the durability-before-visibility ordering of spec 4.4. -/
def durabilityBeforeVisibility : List Action → Bool
  | [] => true
  | Action.sendTo _ _ :: rest =>
      rest.all (fun a =>
        match a with
        | Action.putLastCode _ => false
        | Action.putLastTip _ => false
        | _ => true) && durabilityBeforeVisibility rest
  | _ :: rest => durabilityBeforeVisibility rest

/-- True iff every frame sent in the trace is sent to every connection in
`conns`; the broadcast contract of spec 4.5. -/
def broadcastsTo (conns : List Nat) (tr : List Action) : Bool :=
  tr.all fun a =>
    match a with
    | Action.sendTo _ frame => conns.all fun c => tr.contains (Action.sendTo c frame)
    | _ => true

/-- True iff every send in the trace targets connection `c`. -/
def sendsOnlyTo (c : Nat) (tr : List Action) : Bool :=
  tr.all fun a =>
    match a with
    | Action.sendTo c' _ => c' == c
    | _ => true

/-- The pairing invariant of spec section 3: either the session is still in
its initial all-empty state, or `lastTip` is exactly the Gateway's output for
`lastAnalyzedCode`, where `g` gives the Gateway's response per snapshot. -/
def TipMatchesBaseline (g : String → GatewayResult) (s : SessionState) : Prop :=
  (s.lastAnalyzedCode = "" ∧ s.lastTip = "") ∨
    g s.lastAnalyzedCode = GatewayResult.ok s.lastTip

/-- A snapshot message of 60 characters: from an empty baseline its magnitude
is 60, which exceeds the threshold of 50. -/
def bigSnapshot : String := String.mk (List.replicate 60 'a')

theorem string_length_eq (s : String) : s.length = s.data.length := rfl

theorem string_eq_empty_iff (s : String) : s = "" ↔ s.data = [] := by
  constructor
  · intro h; rw [h]
  · intro h
    cases s with
    | mk data =>
      have h' : data = [] := h
      subst h'
      rfl

theorem string_ext_of_data (a b : String) (h : a.data = b.data) : a = b := by
  cases a with
  | mk da =>
    cases b with
    | mk db =>
      have h' : da = db := h
      rw [h']

theorem commonPrefixLen_le (as : List Char) :
    ∀ bs : List Char, commonPrefixLen as bs ≤ min as.length bs.length := by
  induction as with
  | nil => intro bs; cases bs <;> simp [commonPrefixLen]
  | cons a as ih =>
    intro bs
    cases bs with
    | nil => simp [commonPrefixLen]
    | cons b bs =>
      by_cases h : a = b
      · have := ih bs
        simp only [commonPrefixLen, if_pos h, List.length_cons]
        omega
      · simp [commonPrefixLen, h]

theorem commonPrefixLen_comm (as : List Char) :
    ∀ bs : List Char, commonPrefixLen as bs = commonPrefixLen bs as := by
  induction as with
  | nil => intro bs; cases bs <;> simp [commonPrefixLen]
  | cons a as ih =>
    intro bs
    cases bs with
    | nil => simp [commonPrefixLen]
    | cons b bs =>
      by_cases h : a = b
      · simp [commonPrefixLen, h, ih bs]
      · have h' : ¬ b = a := fun hba => h hba.symm
        simp [commonPrefixLen, h, h']

theorem commonPrefixLen_agree (as : List Char) :
    ∀ (bs : List Char) (i : Nat), i < commonPrefixLen as bs →
      as.getD i ' ' = bs.getD i ' ' := by
  induction as with
  | nil => intro bs i h; simp [commonPrefixLen] at h
  | cons a as ih =>
    intro bs i h
    cases bs with
    | nil => simp [commonPrefixLen] at h
    | cons b bs =>
      by_cases hab : a = b
      · rw [commonPrefixLen, if_pos hab] at h
        cases i with
        | zero => simpa using hab
        | succ i =>
          have : i < commonPrefixLen as bs := by omega
          simpa using ih bs i this
      · rw [commonPrefixLen, if_neg hab] at h
        omega

theorem commonPrefixLen_mismatch (as : List Char) :
    ∀ bs : List Char, commonPrefixLen as bs < as.length →
      commonPrefixLen as bs < bs.length →
      as.getD (commonPrefixLen as bs) ' ' ≠ bs.getD (commonPrefixLen as bs) ' ' := by
  induction as with
  | nil => intro bs h1 h2; simp at h1
  | cons a as ih =>
    intro bs h1 h2
    cases bs with
    | nil => simp at h2
    | cons b bs =>
      by_cases hab : a = b
      · rw [commonPrefixLen, if_pos hab] at h1 h2 ⊢
        have h1' : commonPrefixLen as bs < as.length := by
          simp only [List.length_cons] at h1; omega
        have h2' : commonPrefixLen as bs < bs.length := by
          simp only [List.length_cons] at h2; omega
        simpa using ih bs h1' h2'
      · rw [commonPrefixLen, if_neg hab]
        simpa using hab

theorem getD_reverse (l : List Char) (i : Nat) (h : i < l.length) :
    l.reverse.getD i ' ' = l.getD (l.length - 1 - i) ' ' := by
  have hrev : i < l.reverse.length := by simpa using h
  have hidx : l.length - 1 - i < l.length := by omega
  rw [List.getD_eq_getElem _ _ hrev, List.getD_eq_getElem _ _ hidx]
  exact List.getElem_reverse hrev

theorem scanStart_eq (o n : List Char) (minLen : Nat)
    (ho : minLen ≤ o.length) (hn : minLen ≤ n.length) :
    ∀ fuel start, minLen - start ≤ fuel →
      scanStart o n minLen start fuel =
        start + min (minLen - start) (commonPrefixLen (o.drop start) (n.drop start)) := by
  intro fuel
  induction fuel with
  | zero =>
    intro start hfuel
    have : minLen - start = 0 := by omega
    simp [scanStart, this]
  | succ fuel ih =>
    intro start hfuel
    by_cases hlt : start < minLen
    · have hso : start < o.length := lt_of_lt_of_le hlt ho
      have hsn : start < n.length := lt_of_lt_of_le hlt hn
      have hdo : o.drop start = o.getD start ' ' :: o.drop (start + 1) := by
        rw [List.getD_eq_getElem _ _ hso]
        exact List.drop_eq_getElem_cons hso
      have hdn : n.drop start = n.getD start ' ' :: n.drop (start + 1) := by
        rw [List.getD_eq_getElem _ _ hsn]
        exact List.drop_eq_getElem_cons hsn
      by_cases hch : o.getD start ' ' = n.getD start ' '
      · rw [scanStart, if_pos ⟨hlt, hch⟩, ih (start + 1) (by omega)]
        rw [hdo, hdn, hch, commonPrefixLen, if_pos rfl]
        omega
      · rw [scanStart, if_neg (by intro hc; exact hch hc.2)]
        rw [hdo, hdn, commonPrefixLen, if_neg hch]
        omega
    · rw [scanStart, if_neg (by intro hc; exact hlt hc.1)]
      have : minLen - start = 0 := by omega
      simp [this]

theorem scanEnd_eq_scanStart (o n : List Char) (limit : Nat)
    (ho : limit ≤ o.length) (hn : limit ≤ n.length) :
    ∀ fuel e, scanEnd o n limit e fuel = scanStart o.reverse n.reverse limit e fuel := by
  intro fuel
  induction fuel with
  | zero => intro e; simp [scanEnd, scanStart]
  | succ fuel ih =>
    intro e
    by_cases hlt : e < limit
    · have heo : e < o.length := lt_of_lt_of_le hlt ho
      have hen : e < n.length := lt_of_lt_of_le hlt hn
      have hco : o.reverse.getD e ' ' = o.getD (o.length - 1 - e) ' ' := getD_reverse o e heo
      have hcn : n.reverse.getD e ' ' = n.getD (n.length - 1 - e) ' ' := getD_reverse n e hen
      by_cases hch : o.getD (o.length - 1 - e) ' ' = n.getD (n.length - 1 - e) ' '
      · rw [scanEnd, if_pos ⟨hlt, hch⟩, scanStart,
          if_pos ⟨hlt, by rw [hco, hcn]; exact hch⟩]
        exact ih (e + 1)
      · rw [scanEnd, if_neg (by intro hc; exact hch hc.2), scanStart,
          if_neg (by intro hc; exact hch (by rw [← hco, ← hcn]; exact hc.2))]
    · rw [scanEnd, if_neg (by intro hc; exact hlt hc.1), scanStart,
        if_neg (by intro hc; exact hlt hc.1)]

theorem scanEnd_eq (o n : List Char) (limit : Nat)
    (ho : limit ≤ o.length) (hn : limit ≤ n.length) :
    ∀ fuel e, limit - e ≤ fuel →
      scanEnd o n limit e fuel =
        e + min (limit - e) (commonPrefixLen (o.reverse.drop e) (n.reverse.drop e)) := by
  intro fuel e hfuel
  rw [scanEnd_eq_scanStart o n limit ho hn fuel e]
  exact scanStart_eq o.reverse n.reverse limit (by simpa using ho) (by simpa using hn) fuel e hfuel

theorem calculateDiff_eq_specMagnitude (a b : String) :
    calculateDiff a b = specMagnitude a b := by
  simp only [calculateDiff, specMagnitude]
  by_cases h1 : a = b
  · simp [h1]
  · rw [if_neg h1, if_neg h1]
    by_cases h2 : a = ""
    · simp [h2]
    · rw [if_neg h2, if_neg h2]
      by_cases h3 : b = ""
      · simp [h3]
      · rw [if_neg h3, if_neg h3]
        have hoa : min a.length b.length ≤ a.data.length := by
          rw [← string_length_eq]; exact min_le_left _ _
        have hob : min a.length b.length ≤ b.data.length := by
          rw [← string_length_eq]; exact min_le_right _ _
        have hstart := scanStart_eq a.data b.data (min a.length b.length) hoa hob
          (min a.length b.length) 0 (by omega)
        simp only [List.drop_zero, Nat.sub_zero, Nat.zero_add] at hstart
        have hple : commonPrefixLen a.data b.data ≤ min a.length b.length := by
          have := commonPrefixLen_le a.data b.data
          rw [string_length_eq a, string_length_eq b]
          omega
        have hstart' : scanStart a.data b.data (min a.length b.length) 0
            (min a.length b.length) = commonPrefixLen a.data b.data := by
          rw [hstart]; omega
        rw [hstart']
        have hend := scanEnd_eq a.data b.data
          (min a.length b.length - commonPrefixLen a.data b.data)
          (by omega) (by omega)
          (min a.length b.length - commonPrefixLen a.data b.data) 0 (by omega)
        simp only [List.drop_zero, Nat.sub_zero, Nat.zero_add] at hend
        rw [hend]

theorem calculateDiff_comm (a b : String) : calculateDiff a b = calculateDiff b a := by
  rw [calculateDiff_eq_specMagnitude, calculateDiff_eq_specMagnitude]
  unfold specMagnitude
  by_cases h1 : a = b
  · simp [h1]
  · have h1' : ¬ b = a := fun h => h1 h.symm
    rw [if_neg h1, if_neg h1']
    by_cases h2 : a = ""
    · have h3 : ¬ b = "" := fun h => h1 (by rw [h2, h])
      rw [if_pos h2, if_neg h3, if_pos h2]
    · rw [if_neg h2]
      by_cases h3 : b = ""
      · rw [if_pos h3, if_pos h3]
      · rw [if_neg h3, if_neg h3, if_neg h2]
        rw [commonPrefixLen_comm a.data b.data,
          commonPrefixLen_comm a.data.reverse b.data.reverse,
          Nat.min_comm a.length b.length,
          Nat.max_comm (a.length - _ - _) (b.length - _ - _)]

/-- Claim C1: on a Gateway failure the handler leaves `lastAnalyzedCode` and
`lastTip` exactly as they were, and when the gate had fired it reports the
failure outcome and sends only the error frame. -/
theorem gateway_failure_preserves_state (s : SessionState) (c : Nat) (m e : String) :
    (webSocketMessage s c m (GatewayResult.err e)).1 = s ∧
    (CHANGE_THRESHOLD < calculateDiff s.lastAnalyzedCode m →
      (webSocketMessage s c m (GatewayResult.err e)).2.1 = Outcome.failed ∧
      (webSocketMessage s c m (GatewayResult.err e)).2.2 = [Action.sendTo c errorFrame]) := by
  by_cases h : CHANGE_THRESHOLD < calculateDiff s.lastAnalyzedCode m
  · simp [webSocketMessage, h]
  · simp [webSocketMessage, h]

theorem gateway_failure_preserves_state_witness :
    (webSocketMessage ⟨"", ""⟩ 0 bigSnapshot (GatewayResult.err "network down")).1 = ⟨"", ""⟩ ∧
    (webSocketMessage ⟨"", ""⟩ 0 bigSnapshot (GatewayResult.err "network down")).2.1 =
      Outcome.failed :=
  ⟨(gateway_failure_preserves_state ⟨"", ""⟩ 0 bigSnapshot "network down").1,
   ((gateway_failure_preserves_state ⟨"", ""⟩ 0 bigSnapshot "network down").2 (by decide)).1⟩

/-- Claim C2: at or below the threshold of 50 the handler performs no Gateway
call, emits nothing, and changes no state (it returns the unchanged state,
the skipped outcome and an empty trace); the outcome is non-skipped exactly
when the magnitude exceeds the threshold. -/
theorem below_threshold_skips (s : SessionState) (c : Nat) (m : String) (gw : GatewayResult) :
    (calculateDiff s.lastAnalyzedCode m ≤ CHANGE_THRESHOLD →
      webSocketMessage s c m gw = (s, Outcome.skipped, [])) ∧
    ((webSocketMessage s c m gw).2.1 ≠ Outcome.skipped ↔
      CHANGE_THRESHOLD < calculateDiff s.lastAnalyzedCode m) := by
  constructor
  · intro hle
    have h : ¬ CHANGE_THRESHOLD < calculateDiff s.lastAnalyzedCode m := by omega
    simp [webSocketMessage, h]
  · by_cases h : CHANGE_THRESHOLD < calculateDiff s.lastAnalyzedCode m
    · cases gw <;> simp [webSocketMessage, h]
    · simp [webSocketMessage, h]

theorem below_threshold_skips_witness :
    webSocketMessage ⟨"", ""⟩ 0 "a short snippet" (GatewayResult.ok "tip") =
      (⟨"", ""⟩, Outcome.skipped, []) :=
  (below_threshold_skips ⟨"", ""⟩ 0 "a short snippet" (GatewayResult.ok "tip")).1 (by decide)

/-- Claim C3: `calculateDiff` coincides with the common-affix reference
algorithm of spec section 4.1 on all inputs, and on the single-character
replacement example it evaluates to 1. -/
theorem calculateDiff_matches_spec_algorithm :
    (∀ a b : String, calculateDiff a b = specMagnitude a b) ∧
    calculateDiff "function foo() \x7b return 1; \x7d" "function foo() \x7b return 2; \x7d" = 1 :=
  ⟨calculateDiff_eq_specMagnitude, by decide⟩

/-- Claim C4 counterexample: on a successful analysis the handler's trace
violates durability-before-visibility — the websocket send of the result
happens before the storage puts, at the concrete run shown. -/
theorem send_before_persist_cex :
    durabilityBeforeVisibility
      (webSocketMessage ⟨"", ""⟩ 0 bigSnapshot (GatewayResult.ok "use const")).2.2 = false := by
  decide

/-- Claim C4 amended: on every successful analysis the trace is exactly the
result send to the requesting socket followed by the two durable store
writes, so the store write is applied after, not before, the result event. -/
theorem send_precedes_persist (s : SessionState) (c : Nat) (m resp : String)
    (h : CHANGE_THRESHOLD < calculateDiff s.lastAnalyzedCode m) :
    (webSocketMessage s c m (GatewayResult.ok resp)).2.2 =
      [Action.sendTo c (resultFrame resp), Action.putLastCode m, Action.putLastTip resp] := by
  simp [webSocketMessage, h]

theorem send_precedes_persist_witness :
    (webSocketMessage ⟨"", ""⟩ 0 bigSnapshot (GatewayResult.ok "use const")).2.2 =
      [Action.sendTo 0 (resultFrame "use const"), Action.putLastCode bigSnapshot,
       Action.putLastTip "use const"] :=
  send_precedes_persist ⟨"", ""⟩ 0 bigSnapshot "use const" (by decide)

/-- Claim C5: the pairing invariant — `lastTip` is the Gateway's output for
exactly `lastAnalyzedCode`, or the session is still initial — is preserved by
every snapshot, and the two fields change atomically: the state is either
untouched or both fields are set from the same successful Gateway call. -/
theorem baseline_tip_atomic (g : String → GatewayResult) (s : SessionState) (c : Nat)
    (m : String) (h : TipMatchesBaseline g s) :
    TipMatchesBaseline g (webSocketMessage s c m (g m)).1 ∧
    ((webSocketMessage s c m (g m)).1 = s ∨
      ∃ resp, g m = GatewayResult.ok resp ∧ (webSocketMessage s c m (g m)).1 = ⟨m, resp⟩) := by
  by_cases hgate : CHANGE_THRESHOLD < calculateDiff s.lastAnalyzedCode m
  · cases hg : g m with
    | ok resp =>
      have hstate : (webSocketMessage s c m (GatewayResult.ok resp)).1 = ⟨m, resp⟩ := by
        simp [webSocketMessage, hgate]
      refine ⟨?_, Or.inr ⟨resp, rfl, hstate⟩⟩
      rw [hstate]
      exact Or.inr hg
    | err e =>
      refine ⟨?_, Or.inl ?_⟩
      · simpa [webSocketMessage, hgate, hg] using h
      · simp [webSocketMessage, hgate, hg]
  · refine ⟨?_, Or.inl ?_⟩
    · simpa [webSocketMessage, hgate] using h
    · simp [webSocketMessage, hgate]

theorem baseline_tip_atomic_witness :
    TipMatchesBaseline (fun _ => GatewayResult.ok "use const")
      (webSocketMessage ⟨"", ""⟩ 0 bigSnapshot
        ((fun _ => GatewayResult.ok "use const") bigSnapshot)).1 :=
  (baseline_tip_atomic (fun _ => GatewayResult.ok "use const") ⟨"", ""⟩ 0 bigSnapshot
    (Or.inl ⟨rfl, rfl⟩)).1

/-- Claim C6 counterexample: a connection attaching to a session whose
baseline and tip are both non-empty receives two events, not exactly one
Restore event carrying both values. -/
theorem attach_single_restore_cex :
    (fetchAttach ⟨"let x=1;", "add a type annotation"⟩ 0).2.length ≠ 1 := by
  decide

/-- Claim C6 amended: attach does not mutate session state; with both fields
non-empty it replays two events — a RESTORE_CODE frame carrying the baseline
followed by an AI TIP frame carrying the stored tip — and with both fields
empty it replays nothing. -/
theorem attach_replays_two_events (s : SessionState) (c : Nat) :
    (fetchAttach s c).1 = s ∧
    (s.lastAnalyzedCode ≠ "" → s.lastTip ≠ "" →
      (fetchAttach s c).2 =
        [Action.sendTo c (restoreCodeFrame s.lastAnalyzedCode),
         Action.sendTo c (restoreTipFrame s.lastTip)]) ∧
    (s.lastAnalyzedCode = "" → s.lastTip = "" → (fetchAttach s c).2 = []) := by
  refine ⟨rfl, ?_, ?_⟩
  · intro h1 h2
    simp [fetchAttach, h1, h2]
  · intro h1 h2
    simp [fetchAttach, h1, h2]

theorem attach_replays_two_events_witness :
    (fetchAttach ⟨"let x=1;", "add a type annotation"⟩ 0).2 =
      [Action.sendTo 0 (restoreCodeFrame "let x=1;"),
       Action.sendTo 0 (restoreTipFrame "add a type annotation")] :=
  (attach_replays_two_events ⟨"let x=1;", "add a type annotation"⟩ 0).2.1
    (by decide) (by decide)

/-- Claim C7 counterexample: with two connections 0 and 1 attached and
connection 0 sending a snapshot that triggers a successful analysis, the
trace is not a broadcast to both connections. -/
theorem no_broadcast_cex :
    broadcastsTo [0, 1]
      (webSocketMessage ⟨"", ""⟩ 0 bigSnapshot (GatewayResult.ok "use const")).2.2 = false := by
  decide

/-- Claim C7 amended: every frame the snapshot handler or the attach replay
emits is sent only to the connection the call is serving (`ws.send` on the
sender's socket); no event is forwarded to any other attached connection. -/
theorem events_sent_only_to_sender (s : SessionState) (c : Nat) (m : String)
    (gw : GatewayResult) :
    sendsOnlyTo c (webSocketMessage s c m gw).2.2 = true ∧
    sendsOnlyTo c (fetchAttach s c).2 = true := by
  constructor
  · by_cases h : CHANGE_THRESHOLD < calculateDiff s.lastAnalyzedCode m
    · cases gw <;> simp [webSocketMessage, sendsOnlyTo, h]
    · simp [webSocketMessage, sendsOnlyTo, h]
  · by_cases h1 : s.lastAnalyzedCode = "" <;> by_cases h2 : s.lastTip = "" <;>
      simp [fetchAttach, sendsOnlyTo, h1, h2]

/-- Claim C8 counterexample: a run whose Gateway succeeds with the advisory
text of the error message and a run whose Gateway fails send byte-identical
first frames, so the receiver cannot distinguish the Error event from a
Result event. -/
theorem error_frame_equals_result_frame_cex :
    (webSocketMessage ⟨"", ""⟩ 0 bigSnapshot
        (GatewayResult.ok "Error generating tip.")).2.2.head? =
      (webSocketMessage ⟨"", ""⟩ 0 bigSnapshot (GatewayResult.err "network down")).2.2.head? := by
  decide

/-- Claim C8 amended: the restore-code frame is distinguishable from result
and error frames (it carries the RESTORE_CODE prefix while they carry the AI
TIP prefix), but the error frame is not distinguishable from a result frame:
it equals the result frame whose advisory is the error text. -/
theorem frame_kinds_distinguishability (code tip : String) :
    restoreCodeFrame code ≠ resultFrame tip ∧
    restoreCodeFrame code ≠ errorFrame ∧
    resultFrame "Error generating tip." = errorFrame := by
  refine ⟨?_, ?_, rfl⟩
  · intro h
    simp only [restoreCodeFrame, resultFrame] at h
    have h1 : ("RESTORE_CODE:" ++ code).data.head? = ("AI TIP: " ++ tip).data.head? := by
      rw [h]
    have h2 : ("RESTORE_CODE:" ++ code).data.head? = some 'R' := rfl
    have h3 : ("AI TIP: " ++ tip).data.head? = some 'A' := rfl
    rw [h2, h3] at h1
    simp at h1
  · intro h
    simp only [restoreCodeFrame, errorFrame] at h
    have h1 : ("RESTORE_CODE:" ++ code).data.head? =
        ("AI TIP: Error generating tip." : String).data.head? := by
      rw [h]
    have h2 : ("RESTORE_CODE:" ++ code).data.head? = some 'R' := rfl
    have h3 : ("AI TIP: Error generating tip." : String).data.head? = some 'A' := rfl
    rw [h2, h3] at h1
    simp at h1

theorem frame_kinds_distinguishability_witness :
    restoreCodeFrame "let x=1;" ≠ resultFrame "use const" ∧
    resultFrame "Error generating tip." = errorFrame :=
  ⟨(frame_kinds_distinguishability "let x=1;" "use const").1,
   (frame_kinds_distinguishability "let x=1;" "use const").2.2⟩

/-- Claim C9 counterexample: there is no pair of texts on which
`calculateDiff` disagrees with its own swap — the claimed asymmetric pair
does not exist. -/
theorem no_asymmetric_pair :
    ¬ ∃ a b : String, calculateDiff a b ≠ calculateDiff b a := by
  rintro ⟨a, b, h⟩
  exact h (calculateDiff_comm a b)

/-- Claim C9 amended: `calculateDiff` is symmetric on all inputs — the
forward and backward scan lengths are invariant under swapping the
arguments, so the magnitude always agrees with its swap. -/
theorem calculateDiff_symmetric (a b : String) :
    calculateDiff a b = calculateDiff b a :=
  calculateDiff_comm a b

/-- Claim C10: the magnitude is zero exactly on identical snapshots — equal
inputs give 0, and a 0 result forces the inputs to be equal, so the gate can
never skip by reporting 0 for two different documents. -/
theorem calculateDiff_eq_zero_iff (a b : String) : calculateDiff a b = 0 ↔ a = b := by
  constructor
  · intro h
    by_contra hne
    rw [calculateDiff_eq_specMagnitude] at h
    simp only [specMagnitude] at h
    rw [if_neg hne] at h
    by_cases ha : a = ""
    · rw [if_pos ha] at h
      have hbd : b.data = [] := by
        rw [string_length_eq] at h
        exact List.length_eq_zero.mp h
      exact hne (by rw [ha, (string_eq_empty_iff b).mpr hbd])
    · rw [if_neg ha] at h
      by_cases hb : b = ""
      · rw [if_pos hb] at h
        have had : a.data = [] := by
          rw [string_length_eq] at h
          exact List.length_eq_zero.mp h
        exact ha ((string_eq_empty_iff a).mpr had)
      · rw [if_neg hb] at h
        have hla : a.length = a.data.length := string_length_eq a
        have hlb : b.length = b.data.length := string_length_eq b
        have hple := commonPrefixLen_le a.data b.data
        by_cases hpL : commonPrefixLen a.data b.data = min a.length b.length
        · have hlen : a.data.length = b.data.length := by omega
          have hdata : a.data = b.data := by
            apply List.ext_getElem hlen
            intro i hi1 hi2
            have hi : i < commonPrefixLen a.data b.data := by omega
            have := commonPrefixLen_agree a.data b.data i hi
            rwa [List.getD_eq_getElem _ _ hi1, List.getD_eq_getElem _ _ hi2] at this
          exact hne (string_ext_of_data a b hdata)
        · have hplt : commonPrefixLen a.data b.data < min a.length b.length := by omega
          have hmis := commonPrefixLen_mismatch a.data b.data (by omega) (by omega)
          have hq : min a.length b.length - commonPrefixLen a.data b.data ≤
              commonPrefixLen a.data.reverse b.data.reverse := by omega
          have hidx : min a.length b.length - commonPrefixLen a.data b.data - 1 <
              commonPrefixLen a.data.reverse b.data.reverse := by omega
          have hagree := commonPrefixLen_agree a.data.reverse b.data.reverse
            (min a.length b.length - commonPrefixLen a.data b.data - 1) hidx
          rw [getD_reverse a.data _ (by omega), getD_reverse b.data _ (by omega)] at hagree
          have hia : a.data.length - 1 -
              (min a.length b.length - commonPrefixLen a.data b.data - 1) =
              commonPrefixLen a.data b.data := by omega
          have hib : b.data.length - 1 -
              (min a.length b.length - commonPrefixLen a.data b.data - 1) =
              commonPrefixLen a.data b.data := by omega
          rw [hia, hib] at hagree
          exact hmis hagree
  · intro h
    rw [h]
    simp [calculateDiff]

end CodeMentor
